import Mathlib

set_option maxRecDepth 7000

/-!
Shallow embedding of the signal core of the COT monitor
(src/cot_monitor.py): the record normalizer calculate_net_positions
(lines 115-136) and the signal detector detect_signals (lines 138-213).

Modelling conventions: Python floats are modeled as rationals; the
arithmetic the claims depend on (subtraction, order comparison and
equality of net positions) is structurally the same over both carriers.
A Python exception escaping a function (ValueError from min or max of an
empty sequence, IndexError from indexing, KeyError from a missing dict
key) is modeled by Option, with none standing for a raised exception.
A Python dict key that may be absent is modeled by an Option field.
-/

namespace COTMonitor

/-- Value stored in a numeric field of a raw API record: either a value
that Python float() converts to a number, or a string float() rejects
with ValueError. -/
inductive RawVal where
  | num (q : ℚ)
  | unparsable (s : String)
  deriving DecidableEq

/-- Raw API record, a loosely typed Python dict; none models an absent
key. Field names follow the source: report_date stands for the key
report_date_as_yyyy_mm_dd, lev_long for lev_money_positions_long,
lev_short for lev_money_positions_short, nonrept_long for
nonrept_positions_long_all, nonrept_short for nonrept_positions_short_all. -/
structure RawRecord where
  report_date : Option String
  lev_long : Option RawVal
  lev_short : Option RawVal
  nonrept_long : Option RawVal
  nonrept_short : Option RawVal
  deriving DecidableEq

/-- Processed record appended by calculate_net_positions (lines 126-132). -/
structure Record where
  date : String
  hf_net : ℚ
  retail_net : ℚ
  hf_long : ℚ
  hf_short : ℚ
  deriving DecidableEq

/-- Python float(record.get(key, 0)) as in lines 121-124: an absent key
yields 0.0, a numeric value converts, an unparsable value raises
ValueError (none). -/
def getFloat : Option RawVal → Option ℚ
  | none => some 0
  | some (RawVal.num q) => some q
  | some (RawVal.unparsable _) => none

/-- Body of the loop of calculate_net_positions (lines 120-134): the four
float conversions, then the date lookup in the dict literal; a ValueError
or KeyError makes the whole iteration fail, which the except clause turns
into skipping the record. -/
def processOne (r : RawRecord) : Option Record :=
  (getFloat r.lev_long).bind fun hf_long =>
  (getFloat r.lev_short).bind fun hf_short =>
  (getFloat r.nonrept_long).bind fun retail_long =>
  (getFloat r.nonrept_short).bind fun retail_short =>
  r.report_date.bind fun d =>
  some { date := d, hf_net := hf_long - hf_short,
         retail_net := retail_long - retail_short,
         hf_long := hf_long, hf_short := hf_short }

/-- calculate_net_positions (lines 115-136): the loop keeps each record
whose conversions succeed, in order, and skips the others. -/
def calculate_net_positions : List RawRecord → List Record
  | [] => []
  | r :: rest =>
    match processOne r with
    | some p => p :: calculate_net_positions rest
    | none => calculate_net_positions rest

/-- Python two-argument min on floats: the second argument replaces the
running result only when strictly smaller, as the min builtin does. -/
def pyFmin (a b : ℚ) : ℚ := if b < a then b else a

/-- Python two-argument max on floats. -/
def pyFmax (a b : ℚ) : ℚ := if a < b then b else a

/-- Python min over a list of floats; ValueError (none) on the empty list. -/
def pyMin : List ℚ → Option ℚ
  | [] => none
  | x :: xs => some (xs.foldl pyFmin x)

/-- Python max over a list of floats; ValueError (none) on the empty list. -/
def pyMax : List ℚ → Option ℚ
  | [] => none
  | x :: xs => some (xs.foldl pyFmax x)

/-- Python slice l[-k:]: the last k elements, the whole list when k
exceeds its length. -/
def lastSlice (l : List ℚ) (k : Nat) : List ℚ := l.drop (l.length - k)

/-- Python slice l[-a:-b] for a ≥ b: elements from index len - a to
index len - b, both clamped below at 0 (Nat subtraction clamps). -/
def midSlice (l : List ℚ) (a b : Nat) : List ℚ :=
  (l.take (l.length - b)).drop (l.length - a)

/-- Integer nearest to 100 * q, rounding half to even, the tie rule of
Python round; computed on the numerator and denominator so that kernel
reduction goes through. -/
def roundHalfEven100 (q : ℚ) : ℤ :=
  let n := 100 * q.num
  let d := (q.den : ℤ)
  let f := Int.fdiv n d
  let r := n - f * d
  if 2 * r < d then f
  else if d < 2 * r then f + 1
  else if f % 2 = 0 then f else f + 1

/-- Python round(x, 2) as used in lines 204-206: the multiple of 1/100
nearest to x, ties to even. -/
def round2 (q : ℚ) : ℚ := mkRat (roundHalfEven100 q) 100

/-- Result dict of detect_signals. The fields hf_long, hf_short and date
are Option because the insufficient-data dict (lines 153-160) omits those
keys; none models an absent key. -/
structure SignalResult where
  current_net : ℚ
  hf_long : Option ℚ
  hf_short : Option ℚ
  bullish_divergence : Bool
  bearish_divergence : Bool
  extreme_bullish : Bool
  extreme_bearish : Bool
  status : String
  date : Option String
  deriving DecidableEq

/-- Dict returned by detect_signals when len(data) < 2 (lines 153-160);
it carries no hf_long, hf_short or date key. -/
def insufficientResult : SignalResult :=
  { current_net := 0, hf_long := none, hf_short := none,
    bullish_divergence := false, bearish_divergence := false,
    extreme_bullish := false, extreme_bearish := false,
    status := "INSUFFICIENT_DATA", date := none }

/-- hf_net values of the extreme lookback window
data[:min(extreme_weeks, len(data))] (lines 167 and 170). -/
def extremeNets (data : List Record) (extreme_weeks : Nat) : List ℚ :=
  (data.take (min extreme_weeks data.length)).map Record.hf_net

/-- hf_net values of the divergence window
data[:min(divergence_weeks, len(data))] (lines 166 and 179). -/
def divNets (data : List Record) (divergence_weeks : Nat) : List ℚ :=
  (data.take (min divergence_weeks data.length)).map Record.hf_net

/-- detect_signals (lines 138-213). The failure points, in the order the
Python statements run: data[0] (cannot fail past the length guard),
min and max over the extreme window (lines 171-172), min over
divergence_nets[-26:] (line 182), min over divergence_nets[-52:-26]
(line 183), divergence_nets[-1] (line 184), max over the two divergence
slices (lines 187-188). The hardcoded 26 and 52 in the slices are
literals in the source regardless of the divergence_weeks argument. -/
def detect_signals (data : List Record) (divergence_weeks extreme_weeks : Nat) :
    Option SignalResult :=
  if data.length < 2 then some insufficientResult
  else
    data.head?.bind fun current =>
    (pyMin (extremeNets data extreme_weeks)).bind fun extreme_low =>
    (pyMax (extremeNets data extreme_weeks)).bind fun extreme_high =>
    (pyMin (lastSlice (divNets data divergence_weeks) 26)).bind fun recent_low =>
    (pyMin (midSlice (divNets data divergence_weeks) 52 26)).bind fun older_low =>
    ((divNets data divergence_weeks).getLast?).bind fun lastNet =>
    (pyMax (lastSlice (divNets data divergence_weeks) 26)).bind fun recent_high =>
    (pyMax (midSlice (divNets data divergence_weeks) 52 26)).bind fun older_high =>
    let bullish_divergence :=
      decide (recent_low > older_low) && decide (current.hf_net < lastNet)
    let bearish_divergence :=
      decide (recent_high < older_high) && decide (current.hf_net > lastNet)
    let extreme_bullish := decide (current.hf_net = extreme_low)
    let extreme_bearish := decide (current.hf_net = extreme_high)
    some { current_net := round2 current.hf_net,
           hf_long := some (round2 current.hf_long),
           hf_short := some (round2 current.hf_short),
           bullish_divergence := bullish_divergence,
           bearish_divergence := bearish_divergence,
           extreme_bullish := extreme_bullish,
           extreme_bearish := extreme_bearish,
           status :=
             if bullish_divergence then "🔥 BULLISH DIVERGENCE"
             else if bearish_divergence then "🔥 BEARISH DIVERGENCE"
             else if extreme_bullish then "⚠️ EXTREME BULLISH"
             else if extreme_bearish then "⚠️ EXTREME BEARISH"
             else "NEUTRAL",
           date := some current.date }

/-- Extreme flag computation of detect_signals, lines 162-175: current =
data[0] and its hf_net (lines 162-163), the extreme window (line 167), its
hf_net values (line 170), extreme_low and extreme_high (lines 171-172,
ValueError on an empty window), and the two equality flags (lines
174-175). These statements run for every series past the length guard,
before the divergence slicing of lines 179-189 that can raise. -/
def extremeFlags (data : List Record) (extreme_weeks : Nat) : Option (Bool × Bool) :=
  data.head?.bind fun current =>
  (pyMin (extremeNets data extreme_weeks)).bind fun extreme_low =>
  (pyMax (extremeNets data extreme_weeks)).bind fun extreme_high =>
  some (decide (current.hf_net = extreme_low), decide (current.hf_net = extreme_high))

/-- Modelled from the spec, section 4.4: the SignalClassifier label chosen
by fixed precedence from the four flags — bullish divergence, bearish
divergence, extreme bullish, extreme bearish, neutral. Stated separately
from detect_signals so the status of the code can be compared with it. -/
def statusByPrecedence (b1 b2 e1 e2 : Bool) : String :=
  if b1 then "🔥 BULLISH DIVERGENCE"
  else if b2 then "🔥 BEARISH DIVERGENCE"
  else if e1 then "⚠️ EXTREME BULLISH"
  else if e2 then "⚠️ EXTREME BEARISH"
  else "NEUTRAL"

/-- A raw field value that float() accepts: absent (defaulting to 0) or
numeric. -/
def valParsable : Option RawVal → Bool
  | some (RawVal.unparsable _) => false
  | _ => true

/-- All four numeric fields of the raw record convert without ValueError. -/
def fieldsParsable (r : RawRecord) : Bool :=
  valParsable r.lev_long && valParsable r.lev_short &&
  valParsable r.nonrept_long && valParsable r.nonrept_short

/-- The condition under which calculate_net_positions keeps a record:
the date key is present and the four numeric fields convert. -/
def keepsRecord (r : RawRecord) : Bool :=
  r.report_date.isSome && fieldsParsable r

/-- Numeric value of a field that float() accepts; an absent field counts
as zero. -/
def valOrZero : Option RawVal → ℚ
  | some (RawVal.num q) => q
  | _ => 0

/-! Helper lemmas shared by the claim theorems. -/

lemma pyFmin_self (x : ℚ) : pyFmin x x = x := by
  unfold pyFmin
  rw [if_neg (lt_irrefl x)]

lemma pyFmax_self (x : ℚ) : pyFmax x x = x := by
  unfold pyFmax
  rw [if_neg (lt_irrefl x)]

lemma foldl_pyFmin_replicate_self (n : ℕ) (x : ℚ) :
    (List.replicate n x).foldl pyFmin x = x := by
  induction n with
  | zero => rfl
  | succ n ih => rw [List.replicate_succ, List.foldl_cons, pyFmin_self, ih]

lemma foldl_pyFmax_replicate_self (n : ℕ) (x : ℚ) :
    (List.replicate n x).foldl pyFmax x = x := by
  induction n with
  | zero => rfl
  | succ n ih => rw [List.replicate_succ, List.foldl_cons, pyFmax_self, ih]

lemma pyMin_replicate_succ (n : ℕ) (x : ℚ) :
    pyMin (List.replicate (n + 1) x) = some x := by
  rw [List.replicate_succ]
  show some ((List.replicate n x).foldl pyFmin x) = some x
  rw [foldl_pyFmin_replicate_self]

lemma pyMax_replicate_succ (n : ℕ) (x : ℚ) :
    pyMax (List.replicate (n + 1) x) = some x := by
  rw [List.replicate_succ]
  show some ((List.replicate n x).foldl pyFmax x) = some x
  rw [foldl_pyFmax_replicate_self]

lemma getLast?_replicate_succ (n : ℕ) (x : ℚ) :
    (List.replicate (n + 1) x).getLast? = some x := by
  induction n with
  | zero => rfl
  | succ n ih =>
    rw [List.replicate_succ, List.replicate_succ, List.getLast?_cons_cons,
      ← List.replicate_succ, ih]

lemma pyMin_isSome (l : List ℚ) (h : l ≠ []) : ∃ m, pyMin l = some m := by
  cases l with
  | nil => exact absurd rfl h
  | cons x xs => exact ⟨xs.foldl pyFmin x, rfl⟩

lemma pyMax_isSome (l : List ℚ) (h : l ≠ []) : ∃ m, pyMax l = some m := by
  cases l with
  | nil => exact absurd rfl h
  | cons x xs => exact ⟨xs.foldl pyFmax x, rfl⟩

lemma extremeNets_ne_nil (data : List Record) (E : Nat) (h2 : 2 ≤ data.length)
    (hE : 1 ≤ E) : extremeNets data E ≠ [] := by
  apply List.ne_nil_of_length_pos
  unfold extremeNets
  rw [List.length_map, List.length_take]
  have h1 : 1 ≤ min E data.length := Nat.le_min.mpr ⟨hE, by omega⟩
  omega

lemma getFloat_eq (v : Option RawVal) (h : valParsable v = true) :
    getFloat v = some (valOrZero v) := by
  cases v with
  | none => rfl
  | some rv =>
    cases rv with
    | num q => rfl
    | unparsable s => simp [valParsable] at h

lemma getFloat_isSome (v : Option RawVal) : (getFloat v).isSome = valParsable v := by
  cases v with
  | none => rfl
  | some rv => cases rv <;> rfl

lemma processOne_eq_some (r : RawRecord) (d : String)
    (hd : r.report_date = some d) (hp : fieldsParsable r = true) :
    processOne r = some
      { date := d, hf_net := valOrZero r.lev_long - valOrZero r.lev_short,
        retail_net := valOrZero r.nonrept_long - valOrZero r.nonrept_short,
        hf_long := valOrZero r.lev_long, hf_short := valOrZero r.lev_short } := by
  simp only [fieldsParsable, Bool.and_eq_true] at hp
  obtain ⟨⟨⟨ha, hb⟩, hc⟩, he⟩ := hp
  unfold processOne
  rw [getFloat_eq _ ha, getFloat_eq _ hb, getFloat_eq _ hc, getFloat_eq _ he, hd]
  rfl

lemma processOne_isSome (r : RawRecord) : (processOne r).isSome = keepsRecord r := by
  unfold processOne keepsRecord fieldsParsable
  rw [← getFloat_isSome r.lev_long, ← getFloat_isSome r.lev_short,
    ← getFloat_isSome r.nonrept_long, ← getFloat_isSome r.nonrept_short]
  cases getFloat r.lev_long <;> cases getFloat r.lev_short <;>
    cases getFloat r.nonrept_long <;> cases getFloat r.nonrept_short <;>
    cases hdt : r.report_date <;> simp [hdt]

lemma processOne_eq_none (r : RawRecord) (hp : keepsRecord r = false) :
    processOne r = none := by
  have h := processOne_isSome r
  rw [hp] at h
  cases hpo : processOne r with
  | none => rfl
  | some p => rw [hpo] at h; simp at h

/-- Inversion of a run of detect_signals that got past the length guard. -/
lemma detect_signals_some_elim (data : List Record) (D E : Nat) (r : SignalResult)
    (h : detect_signals data D E = some r) (h2 : ¬ data.length < 2) :
    ∃ current extreme_low extreme_high recent_low older_low lastNet recent_high older_high,
      data.head? = some current ∧
      pyMin (extremeNets data E) = some extreme_low ∧
      pyMax (extremeNets data E) = some extreme_high ∧
      pyMin (lastSlice (divNets data D) 26) = some recent_low ∧
      pyMin (midSlice (divNets data D) 52 26) = some older_low ∧
      (divNets data D).getLast? = some lastNet ∧
      pyMax (lastSlice (divNets data D) 26) = some recent_high ∧
      pyMax (midSlice (divNets data D) 52 26) = some older_high ∧
      r = { current_net := round2 current.hf_net,
            hf_long := some (round2 current.hf_long),
            hf_short := some (round2 current.hf_short),
            bullish_divergence := decide (recent_low > older_low) && decide (current.hf_net < lastNet),
            bearish_divergence := decide (recent_high < older_high) && decide (current.hf_net > lastNet),
            extreme_bullish := decide (current.hf_net = extreme_low),
            extreme_bearish := decide (current.hf_net = extreme_high),
            status :=
              if decide (recent_low > older_low) && decide (current.hf_net < lastNet) then "🔥 BULLISH DIVERGENCE"
              else if decide (recent_high < older_high) && decide (current.hf_net > lastNet) then "🔥 BEARISH DIVERGENCE"
              else if decide (current.hf_net = extreme_low) then "⚠️ EXTREME BULLISH"
              else if decide (current.hf_net = extreme_high) then "⚠️ EXTREME BEARISH"
              else "NEUTRAL",
            date := some current.date } := by
  unfold detect_signals at h
  rw [if_neg h2] at h
  simp only [Option.bind_eq_some] at h
  obtain ⟨c, hc, elow, h1, ehigh, hh, rlow, h3, olow, h4, lastN, h5, rhigh, h6, ohigh, h7, hr⟩ := h
  exact ⟨c, elow, ehigh, rlow, olow, lastN, rhigh, ohigh, hc, h1, hh, h3, h4, h5, h6, h7,
    (Option.some.inj hr).symm⟩

lemma detect_signals_short (data : List Record) (D E : Nat) (h : data.length < 2) :
    detect_signals data D E = some insufficientResult := by
  unfold detect_signals
  rw [if_pos h]

/-! Concrete inputs used by the witnesses and counterexamples. -/

/-- Record with a given hf_net, as the detector consumes it. -/
def mkRec (q : ℚ) : Record :=
  { date := "d", hf_net := q, retail_net := 0, hf_long := q, hf_short := 0 }

/-- Two-record series: the divergence window holds 2 usable records. -/
def c1series : List Record := [mkRec 1, mkRec 2]

/-- Thirty-record series on which the truncated divergence window fires
the bullish flag. -/
def c1bseries : List Record := mkRec 1 :: mkRec 0 :: List.replicate 28 (mkRec 7)

/-- Fifty-two records, newest first: the newest 26 all have hf_net 5, the
next 25 have hf_net -100, and the oldest has hf_net 50. -/
def c2series : List Record :=
  List.replicate 26 (mkRec 5) ++ List.replicate 25 (mkRec (-100)) ++ [mkRec 50]

/-- Raw record with a date and an unparsable numeric field. -/
def c3bad : RawRecord :=
  { report_date := some "2024-01-05", lev_long := some (RawVal.unparsable "N/A"),
    lev_short := some (RawVal.num 1), nonrept_long := none,
    nonrept_short := some (RawVal.num 2) }

/-- Raw record with a date, parsable fields and one absent numeric field. -/
def c3good : RawRecord :=
  { report_date := some "2024-01-05", lev_long := some (RawVal.num 3),
    lev_short := none, nonrept_long := some (RawVal.num 2),
    nonrept_short := some (RawVal.num 5) }

/-- Second raw record with a date and an unparsable numeric field. -/
def c3bad2 : RawRecord :=
  { report_date := some "2024-01-12", lev_long := some (RawVal.num 4),
    lev_short := some (RawVal.unparsable "."), nonrept_long := none,
    nonrept_short := none }

def c4wseries : List Record := List.replicate 27 (mkRec 4)

def c4wresult : SignalResult :=
  { current_net := 4, hf_long := some 4, hf_short := some 0,
    bullish_divergence := false, bearish_divergence := false,
    extreme_bullish := true, extreme_bearish := true,
    status := "⚠️ EXTREME BULLISH", date := some "d" }

/-- Series whose most recent record has the fractional hf_net 1/1000. -/
def c5series : List Record := mkRec (mkRat 1 1000) :: List.replicate 26 (mkRec 1)

def c5wseries : List Record := List.replicate 27 (mkRec 3)

def c5wresult : SignalResult :=
  { current_net := 3, hf_long := some 3, hf_short := some 0,
    bullish_divergence := false, bearish_divergence := false,
    extreme_bullish := true, extreme_bearish := true,
    status := "⚠️ EXTREME BULLISH", date := some "d" }

/-- Three-record series, length between 2 and 26. -/
def c7cseries : List Record := List.replicate 3 (mkRec 1)

def c7wseries : List Record := mkRec 1 :: mkRec 0 :: List.replicate 28 (mkRec 7)

def c7wresult : SignalResult :=
  { current_net := 1, hf_long := some 1, hf_short := some 0,
    bullish_divergence := true, bearish_divergence := false,
    extreme_bullish := false, extreme_bearish := false,
    status := "🔥 BULLISH DIVERGENCE", date := some "d" }

/-- The 156-week series of spec Scenario D with every hf_net equal, so
the current net equals the maximum over all 156 weeks. -/
def c8series : List Record := List.replicate 156 (mkRec 5)

def c8result : SignalResult :=
  { current_net := 5, hf_long := some 5, hf_short := some 0,
    bullish_divergence := false, bearish_divergence := false,
    extreme_bullish := true, extreme_bearish := true,
    status := "⚠️ EXTREME BULLISH", date := some "d" }

/-- Raw record with a date, dropped because of an unparsable field. -/
def c9bad : RawRecord :=
  { report_date := some "2024-02-02", lev_long := some (RawVal.num 6),
    lev_short := some (RawVal.num 1), nonrept_long := some (RawVal.num 2),
    nonrept_short := some (RawVal.unparsable "x") }

def c10wseries : List Record := List.replicate 27 (mkRec 2)

def c10wresult : SignalResult :=
  { current_net := 2, hf_long := some 2, hf_short := some 0,
    bullish_divergence := false, bearish_divergence := false,
    extreme_bullish := true, extreme_bearish := true,
    status := "⚠️ EXTREME BULLISH", date := some "d" }

/-- Evaluation of the detector on the 156-week Scenario D series, done by
rewriting because direct kernel evaluation of 156-element folds is too
deep. -/
lemma c8series_eval : detect_signals c8series 52 156 = some c8result := by
  have hnets : extremeNets c8series 156 = List.replicate 156 (5 : ℚ) := by
    simp [extremeNets, c8series, List.take_replicate, mkRec]
  have hdiv : divNets c8series 52 = List.replicate 52 (5 : ℚ) := by
    simp [divNets, c8series, List.take_replicate, mkRec]
  have hlast : lastSlice (List.replicate 52 (5 : ℚ)) 26 = List.replicate 26 (5 : ℚ) := by
    simp [lastSlice, List.drop_replicate]
  have hmid : midSlice (List.replicate 52 (5 : ℚ)) 52 26 = List.replicate 26 (5 : ℚ) := by
    simp [midSlice, List.take_replicate, List.drop_replicate]
  have h156 : pyMin (List.replicate 156 (5 : ℚ)) = some 5 := pyMin_replicate_succ 155 5
  have h156x : pyMax (List.replicate 156 (5 : ℚ)) = some 5 := pyMax_replicate_succ 155 5
  have h26 : pyMin (List.replicate 26 (5 : ℚ)) = some 5 := pyMin_replicate_succ 25 5
  have h26x : pyMax (List.replicate 26 (5 : ℚ)) = some 5 := pyMax_replicate_succ 25 5
  have hgl : (List.replicate 52 (5 : ℚ)).getLast? = some 5 := getLast?_replicate_succ 51 5
  have hhead : c8series.head? = some (mkRec 5) := rfl
  unfold detect_signals
  rw [if_neg (by simp [c8series])]
  rw [hhead, hnets, hdiv, hlast, hmid, h156, h156x, h26, h26x, hgl]
  simp only [Option.bind_some]
  decide

/-! Claim theorems. -/

/-- C1: the claim says that on every Series whose divergence window holds
fewer than 52 usable records (in particular every Series of length 2 to
51) detect_signals raises no exception and returns both divergence flags
false. The code instead raises ValueError (modeled by none) on the
two-record series c1series, because min is taken of the empty slice
divergence_nets[-52:-26]; and on the thirty-record series c1bseries it
returns with bullish_divergence true, computed from the truncated
window. -/
theorem c1_short_window_behavior :
    c1series.length = 2 ∧
    detect_signals c1series 52 156 = none ∧
    c1bseries.length = 30 ∧
    Option.map SignalResult.bullish_divergence (detect_signals c1bseries 52 156) =
      some true := by decide

/-- C2: the claim (and spec Scenario C) says bullish_divergence is true
exactly when the minimum hf_net over the newest 26 records of the window
exceeds the minimum over the 26 records before them and the current net
is below the hf_net of the oldest record of the window. On c2series all
three conditions of the claim hold, yet the code returns
bullish_divergence false: on the newest-first series the slice
divergence_nets[-26:] that the code takes as the recent half is actually
the oldest 26 records of the window, so the two halves are swapped. -/
theorem c2_swapped_halves :
    c2series.length = 52 ∧
    Option.map Record.hf_net c2series.head? = some 5 ∧
    pyMin ((divNets c2series 52).take 26) = some 5 ∧
    pyMin (((divNets c2series 52).drop 26).take 26) = some (-100) ∧
    (divNets c2series 52).getLast? = some 50 ∧
    ((-100 : ℚ) < 5 ∧ (5 : ℚ) < 50) ∧
    Option.map SignalResult.bullish_divergence (detect_signals c2series 52 156) =
      some false := by decide

/-- C3 counterexample: the record c3bad has the date field, yet the
Normalizer drops it because one numeric field is unparsable, refuting the
claim that an unparsable numeric field does not cause the record to be
dropped. -/
theorem c3_counterexample :
    c3bad.report_date.isSome = true ∧ calculate_net_positions [c3bad] = [] := by
  decide

/-- C3 amended: for every raw record that contains the date field and
whose numeric fields all parse, the Normalizer keeps the record, treating
an absent numeric field as zero; a record with an unparsable numeric
field is dropped. -/
theorem c3_amended_normalizer (r : RawRecord) :
    (∀ d : String, r.report_date = some d → fieldsParsable r = true →
      calculate_net_positions [r] =
        [{ date := d,
           hf_net := valOrZero r.lev_long - valOrZero r.lev_short,
           retail_net := valOrZero r.nonrept_long - valOrZero r.nonrept_short,
           hf_long := valOrZero r.lev_long,
           hf_short := valOrZero r.lev_short }]) ∧
    (fieldsParsable r = false → calculate_net_positions [r] = []) := by
  constructor
  · intro d hd hp
    have hpo := processOne_eq_some r d hd hp
    simp [calculate_net_positions, hpo]
  · intro hp
    have hk : keepsRecord r = false := by
      unfold keepsRecord
      rw [hp, Bool.and_false]
    have hpo := processOne_eq_none r hk
    simp [calculate_net_positions, hpo]

/-- C3 witness: the amended theorem applied to the concrete records
c3good (kept, absent field treated as zero) and c3bad2 (dropped). -/
theorem c3_amended_witness :
    calculate_net_positions [c3good] =
      [{ date := "2024-01-05",
         hf_net := valOrZero c3good.lev_long - valOrZero c3good.lev_short,
         retail_net := valOrZero c3good.nonrept_long - valOrZero c3good.nonrept_short,
         hf_long := valOrZero c3good.lev_long,
         hf_short := valOrZero c3good.lev_short }] ∧
    calculate_net_positions [c3bad2] = [] :=
  ⟨(c3_amended_normalizer c3good).1 "2024-01-05" rfl (by decide),
   (c3_amended_normalizer c3bad2).2 (by decide)⟩

/-- C4 counterexample: on the empty Series detect_signals returns the
sentinel dict, which lacks the hf_long, hf_short and date keys, refuting
the claim that every returned SignalResult contains all the fields. -/
theorem c4_counterexample :
    detect_signals [] 52 156 = some insufficientResult ∧
    insufficientResult.hf_long = none ∧
    insufficientResult.hf_short = none ∧
    insufficientResult.date = none := by decide

/-- C4 amended: every result returned for a Series of length at least 2
carries the hf_long, hf_short and date keys; for a Series of length
below 2 the result is the sentinel, which carries current_net, the four
flags and status but omits those three keys. -/
theorem c4_amended_fields (data : List Record) (D E : Nat) (r : SignalResult)
    (h : detect_signals data D E = some r) :
    (2 ≤ data.length →
      r.hf_long.isSome = true ∧ r.hf_short.isSome = true ∧ r.date.isSome = true) ∧
    (data.length < 2 → r = insufficientResult) := by
  by_cases hlen : data.length < 2
  · rw [detect_signals_short data D E hlen] at h
    refine ⟨fun h2 => absurd hlen (by omega), fun _ => (Option.some.inj h).symm⟩
  · obtain ⟨c, elow, ehigh, rlow, olow, lastN, rhigh, ohigh,
      hc, h1, hh, h3, h4, h5, h6, h7, hr⟩ := detect_signals_some_elim data D E r h hlen
    subst hr
    exact ⟨fun _ => ⟨rfl, rfl, rfl⟩, fun hl => absurd hl hlen⟩

/-- C4 witness: the amended theorem applied to the 27-record series
c4wseries. -/
theorem c4_amended_witness :
    c4wresult.hf_long.isSome = true ∧ c4wresult.hf_short.isSome = true ∧
    c4wresult.date.isSome = true :=
  (c4_amended_fields c4wseries 52 156 c4wresult (by decide)).1 (by decide)

/-- C5 counterexample: on c5series the most recent hf_net is 1/1000, but
the current_net field of the result is 0 because the code rounds to two
decimal places, refuting the claim that current_net equals the hf_net of
the first record. -/
theorem c5_counterexample :
    Option.map Record.hf_net c5series.head? = some (mkRat 1 1000) ∧
    Option.map SignalResult.current_net (detect_signals c5series 52 156) = some 0 ∧
    (0 : ℚ) ≠ mkRat 1 1000 := by decide

/-- C5 amended: for every Series of length at least 2 on which
detect_signals returns a result, the current_net field equals the hf_net
of the first record rounded to two decimal places. -/
theorem c5_amended_current_net (data : List Record) (D E : Nat) (r : SignalResult)
    (c : Record) (h : detect_signals data D E = some r) (hc : data.head? = some c)
    (h2 : 2 ≤ data.length) :
    r.current_net = round2 c.hf_net := by
  obtain ⟨c2, elow, ehigh, rlow, olow, lastN, rhigh, ohigh,
    hc2, h1, hh, h3, h4, h5, h6, h7, hr⟩ :=
      detect_signals_some_elim data D E r h (by omega)
  rw [hc] at hc2
  obtain rfl := Option.some.inj hc2
  subst hr
  rfl

/-- C5 witness: the amended theorem applied to the 27-record series
c5wseries. -/
theorem c5_amended_witness : c5wresult.current_net = round2 (mkRec 3).hf_net :=
  c5_amended_current_net c5wseries 52 156 c5wresult (mkRec 3) (by decide) rfl
    (by decide)

/-- C6: on every Series of length below 2 detect_signals returns the
sentinel result, whose status is INSUFFICIENT_DATA and whose four flags
are all false. -/
theorem c6_insufficient_data (data : List Record) (D E : Nat)
    (h : data.length < 2) :
    detect_signals data D E = some insufficientResult ∧
    insufficientResult.status = "INSUFFICIENT_DATA" ∧
    insufficientResult.bullish_divergence = false ∧
    insufficientResult.bearish_divergence = false ∧
    insufficientResult.extreme_bullish = false ∧
    insufficientResult.extreme_bearish = false :=
  ⟨detect_signals_short data D E h, rfl, rfl, rfl, rfl, rfl⟩

/-- C6 witness: the theorem applied to the empty Series. -/
theorem c6_witness :
    detect_signals [] 52 156 = some insufficientResult ∧
    insufficientResult.status = "INSUFFICIENT_DATA" ∧
    insufficientResult.bullish_divergence = false ∧
    insufficientResult.bearish_divergence = false ∧
    insufficientResult.extreme_bullish = false ∧
    insufficientResult.extreme_bearish = false :=
  c6_insufficient_data [] 52 156 (by decide)

/-- C7 counterexample: on the three-record series c7cseries
detect_signals raises (none) and emits no status at all, refuting the
claim that every input Series is assigned exactly one status label. -/
theorem c7_counterexample : detect_signals c7cseries 52 156 = none := by decide

/-- C7 amended: every result detect_signals actually returns carries
exactly one status label: INSUFFICIENT_DATA when the series is shorter
than 2, and otherwise the label chosen from the four flags by fixed
precedence (bullish divergence, bearish divergence, extreme bullish,
extreme bearish, neutral). -/
theorem c7_amended_status (data : List Record) (D E : Nat) (r : SignalResult)
    (h : detect_signals data D E = some r) :
    r.status =
      if data.length < 2 then "INSUFFICIENT_DATA"
      else statusByPrecedence r.bullish_divergence r.bearish_divergence
        r.extreme_bullish r.extreme_bearish := by
  by_cases hlen : data.length < 2
  · rw [detect_signals_short data D E hlen] at h
    obtain rfl := (Option.some.inj h).symm
    rw [if_pos hlen]
    rfl
  · obtain ⟨c, elow, ehigh, rlow, olow, lastN, rhigh, ohigh,
      hc, h1, hh, h3, h4, h5, h6, h7, hr⟩ := detect_signals_some_elim data D E r h hlen
    subst hr
    rw [if_neg hlen]
    rfl

/-- C7 witness: the amended theorem applied to the thirty-record series
c7wseries, whose status is the bullish-divergence label. -/
theorem c7_amended_witness :
    c7wresult.status =
      if c7wseries.length < 2 then "INSUFFICIENT_DATA"
      else statusByPrecedence c7wresult.bullish_divergence
        c7wresult.bearish_divergence c7wresult.extreme_bullish
        c7wresult.extreme_bearish :=
  c7_amended_status c7wseries 52 156 c7wresult (by decide)

/-- C8: on every Series of length at least 2, with a window size E of at
least one week clipped to the series length, the extreme flag computation
of lines 162-175 (which runs before the divergence slicing that can
raise) produces its two flags, extreme_bullish is true exactly when the
current hf_net equals the minimum hf_net over the most recent E records,
and extreme_bearish exactly when it equals the maximum, by exact equality
of the modeled float values; and whenever detect_signals returns a
result, the extreme flag fields of that result are exactly the computed
pair. -/
theorem c8_extreme_flags (data : List Record) (D E : Nat) (c : Record)
    (hc : data.head? = some c) (h2 : 2 ≤ data.length) (hE : 1 ≤ E) :
    (∃ b1 b2, extremeFlags data E = some (b1, b2) ∧
      (b1 = true ↔ pyMin (extremeNets data E) = some c.hf_net) ∧
      (b2 = true ↔ pyMax (extremeNets data E) = some c.hf_net)) ∧
    (∀ r : SignalResult, detect_signals data D E = some r →
      extremeFlags data E = some (r.extreme_bullish, r.extreme_bearish)) := by
  have hne := extremeNets_ne_nil data E h2 hE
  obtain ⟨elow, hmin⟩ := pyMin_isSome _ hne
  obtain ⟨ehigh, hmax⟩ := pyMax_isSome _ hne
  constructor
  · refine ⟨decide (c.hf_net = elow), decide (c.hf_net = ehigh), ?_, ?_, ?_⟩
    · unfold extremeFlags
      rw [hc, hmin, hmax]
      rfl
    · rw [decide_eq_true_eq]
      constructor
      · intro he
        rw [hmin, he]
      · intro hpm
        rw [hmin] at hpm
        exact (Option.some.inj hpm).symm
    · rw [decide_eq_true_eq]
      constructor
      · intro he
        rw [hmax, he]
      · intro hpm
        rw [hmax] at hpm
        exact (Option.some.inj hpm).symm
  · intro r hr
    obtain ⟨c2, elow2, ehigh2, rlow, olow, lastN, rhigh, ohigh,
      hc2, h1, hh, h3, h4, h5, h6, h7, hrr⟩ :=
        detect_signals_some_elim data D E r hr (by omega)
    rw [hc] at hc2
    obtain rfl := Option.some.inj hc2
    rw [hmin] at h1
    obtain rfl := Option.some.inj h1
    rw [hmax] at hh
    obtain rfl := Option.some.inj hh
    subst hrr
    unfold extremeFlags
    rw [hc, hmin, hmax]
    rfl

/-- C8 witness: on the 156-week Scenario D series whose current net
equals the maximum over all 156 weeks, the computed extreme flag pair is
(true, true) — in particular extreme_bearish is true — and detect_signals
returns a result whose extreme_bearish field is true. -/
theorem c8_witness :
    extremeFlags c8series 156 = some (true, true) ∧
    pyMax (extremeNets c8series 156) = some (mkRec 5).hf_net ∧
    detect_signals c8series 52 156 = some c8result ∧
    c8result.extreme_bearish = true := by
  have hnets : extremeNets c8series 156 = List.replicate 156 (5 : ℚ) := by
    simp [extremeNets, c8series, List.take_replicate, mkRec]
  have heval : extremeFlags c8series 156 = some (true, true) := by
    unfold extremeFlags
    rw [show c8series.head? = some (mkRec 5) from rfl, hnets,
      pyMin_replicate_succ 155 5, pyMax_replicate_succ 155 5]
    decide
  have h := c8_extreme_flags c8series 52 156 (mkRec 5) rfl (by simp [c8series])
    (by decide)
  obtain ⟨b1, b2, he2, _, hiff2⟩ := h.1
  rw [heval] at he2
  have hb2 : b2 = true := (congrArg Prod.snd (Option.some.inj he2)).symm
  exact ⟨heval, hiff2.mp hb2, c8series_eval, rfl⟩

/-- C9 counterexample: the record c9bad has the date field, yet the
Normalizer drops it (its nonrept_short field is unparsable), refuting the
claim that exactly the records missing the date field are dropped. -/
theorem c9_counterexample :
    c9bad.report_date.isSome = true ∧ calculate_net_positions [c9bad] = [] := by
  decide

/-- C9 amended: the Normalizer is the order-preserving filterMap of the
per-record conversion, and that conversion succeeds exactly on the
records that have the date field and whose four numeric fields parse; so
exactly the records missing the date field or containing an unparsable
numeric field are dropped, and the kept records stay in their original
relative order. -/
theorem c9_amended_filter (l : List RawRecord) :
    calculate_net_positions l = l.filterMap processOne ∧
    ∀ r : RawRecord, (processOne r).isSome = keepsRecord r := by
  refine ⟨?_, processOne_isSome⟩
  induction l with
  | nil => rfl
  | cons r rest ih =>
    cases hp : processOne r with
    | none => simp [calculate_net_positions, List.filterMap_cons, hp, ih]
    | some p => simp [calculate_net_positions, List.filterMap_cons, hp, ih]

/-- C10: in every result detect_signals returns, the two divergence flags
are never both true, because they require the current net to be strictly
below and strictly above the hf_net of the last window record. -/
theorem c10_flags_exclusive (data : List Record) (D E : Nat) (r : SignalResult)
    (h : detect_signals data D E = some r) :
    ¬(r.bullish_divergence = true ∧ r.bearish_divergence = true) := by
  by_cases hlen : data.length < 2
  · rw [detect_signals_short data D E hlen] at h
    obtain rfl := (Option.some.inj h).symm
    rintro ⟨hb1, hb2⟩
    exact absurd hb1 (by decide)
  · obtain ⟨c, elow, ehigh, rlow, olow, lastN, rhigh, ohigh,
      hc, h1, hh, h3, h4, h5, h6, h7, hr⟩ := detect_signals_some_elim data D E r h hlen
    subst hr
    rintro ⟨hb1, hb2⟩
    have hb1b : (decide (rlow > olow) && decide (c.hf_net < lastN)) = true := hb1
    have hb2b : (decide (rhigh < ohigh) && decide (c.hf_net > lastN)) = true := hb2
    rw [Bool.and_eq_true] at hb1b hb2b
    exact lt_asymm (of_decide_eq_true hb1b.2) (of_decide_eq_true hb2b.2)

/-- C10 witness: the theorem applied to the 27-record series c10wseries. -/
theorem c10_witness :
    ¬(c10wresult.bullish_divergence = true ∧ c10wresult.bearish_divergence = true) :=
  c10_flags_exclusive c10wseries 52 156 c10wresult (by decide)

end COTMonitor
